import Mathlib

/-!
Verification of the video-downloader module (src/views/video_downloader.py)
against its specification. The module is embedded shallowly: the extraction
collaborator (yt_dlp) is a parameter, the filesystem is a list of existing
directory names, and Python dictionaries are association lists.
-/

namespace VideoDownloader

/-- A Python value as it may be passed for the itag argument: the None object,
an integer, or a string. Structural equality coincides with Python equality on
these constructors: an int never equals a str, and None equals only None. -/
inductive PyVal where
  | none : PyVal
  | int : Int → PyVal
  | str : String → PyVal
deriving DecidableEq

/-- Python truthiness of a PyVal: None, 0 and the empty string are falsy. -/
def pyTruthy : PyVal → Bool
  | PyVal.none => false
  | PyVal.int n => n != 0
  | PyVal.str s => s != ""

/-- The HEADERS constant of the module (lines 11 to 15). -/
def HEADERS : List (String × String) :=
  [("User-Agent",
    "Mozilla/5.0 (Windows NT 10.0; Win64; x64) AppleWebKit/537.36 (KHTML, like Gecko) Chrome/58.0.3029.110 Safari/537.36")]

/-- The DOWNLOAD_FOLDERS table of the module (lines 16 to 23). -/
def DOWNLOAD_FOLDERS : List (String × String) :=
  [("YouTube", "youtube_video"),
   ("YouTube Shorts", "youtube_shorts"),
   ("X", "x_video"),
   ("Facebook", "facebook_video"),
   ("Instagram", "instagram_video"),
   ("TikTok", "tiktok_video")]

/-- The DEFAULT_FILE_NAME constant of the module (line 24). -/
def DEFAULT_FILE_NAME : String := "Untitled.mp4"

/-- Python dict.get with a default, for a string-keyed dict. -/
def dictGetD (d : List (String × String)) (k dflt : String) : String :=
  match d with
  | [] => dflt
  | (k2, v) :: rest => if k = k2 then v else dictGetD rest k dflt

/-- Python dict.get with a default, for the itag-keyed format table. -/
def pyDictGetD (d : List (PyVal × String)) (k : PyVal) (dflt : String) : String :=
  match d with
  | [] => dflt
  | (k2, v) :: rest => if k = k2 then v else pyDictGetD rest k dflt

/-- The format_map dictionary of get_format_string (lines 36 to 40): the keys
are the integers 18, 22 and 37, as in the Python source. -/
def format_map : List (PyVal × String) :=
  [(PyVal.int 18, "18"),
   (PyVal.int 22, "22"),
   (PyVal.int 37, "37")]

/-- get_format_string (lines 34 to 41): format_map.get(itag, best). -/
def get_format_string (itag : PyVal) : String :=
  pyDictGetD format_map itag "best"

/-- ensure_folder_exists (lines 26 to 32) run on a filesystem state: fs is the
list of directories that exist; mkdirRaises is the message of the OSError that
os.makedirs would raise, or none when directory creation succeeds. When the
folder already exists nothing is attempted and the state is unchanged. -/
def ensure_folder_exists (mkdirRaises : Option String) (fs : List String)
    (folder : String) : Except String (List String) :=
  if folder ∈ fs then Except.ok fs
  else
    match mkdirRaises with
    | some e => Except.error e
    | Option.none => Except.ok (folder :: fs)

/-- One encoded variant as yt_dlp reports it: each field is a dict entry that
may be absent. -/
structure FormatDict where
  format_id : Option String
  resolution : Option String
  format_note : Option String
deriving DecidableEq

/-- The info dict returned by extract_info; the formats key may be absent. -/
structure InfoDict where
  formats : Option (List FormatDict)
deriving DecidableEq

/-- Outcome of one call of the collaborator in metadata-only mode: a result
dict, or a raised exception carrying its message. -/
inductive ExtractOutcome where
  | ok : InfoDict → ExtractOutcome
  | exn : String → ExtractOutcome
deriving DecidableEq

/-- The value fetch_video_info returns: a success dict carrying the formats
list, or an error dict carrying a message. -/
inductive FetchResult where
  | success : List FormatDict → FetchResult
  | failure : String → FetchResult
deriving DecidableEq

/-- The configuration dict handed to the collaborator. A field holding none
stands for an absent key. The headers and http_headers fields are distinct
keys: only http_headers is the HTTP-header-override option of the
collaborator. -/
structure YdlOpts where
  outtmpl : Option String
  quiet : Bool
  headers : Option (List (String × String))
  http_headers : Option (List (String × String))
  format : Option String
deriving DecidableEq

/-- The ydl_opts dict built by fetch_video_info (lines 47 to 50): quiet mode
and the http_headers override, nothing else. -/
def fetch_video_info_opts : YdlOpts :=
  { outtmpl := Option.none
    quiet := true
    headers := Option.none
    http_headers := some HEADERS
    format := Option.none }

/-- What one run of fetch_video_info produced: its returned dict and how many
times it invoked the collaborator. -/
structure FetchRun where
  result : FetchResult
  extractCalls : Nat
deriving DecidableEq

/-- fetch_video_info (lines 43 to 57): one extract_info call in metadata-only
mode; on success the formats list is returned as extracted, with a default of
the empty list when the key is absent; any exception is caught and its message
returned as the error. -/
def fetch_video_info (extract : YdlOpts → String → ExtractOutcome)
    (url : String) : FetchRun :=
  match extract fetch_video_info_opts url with
  | ExtractOutcome.ok info =>
      { result := FetchResult.success (info.formats.getD []), extractCalls := 1 }
  | ExtractOutcome.exn e =>
      { result := FetchResult.failure e, extractCalls := 1 }

/-- Outcome of one call of the collaborator in download mode: success, a
raised DownloadError, or any other raised exception. -/
inductive DlOutcome where
  | ok : DlOutcome
  | downloadError : String → DlOutcome
  | otherError : String → DlOutcome
deriving DecidableEq

/-- The value download_video returns: a success dict carrying the file path,
or an error dict carrying a message. -/
inductive DownloadResult where
  | success : String → DownloadResult
  | failure : String → DownloadResult
deriving DecidableEq

/-- The ydl_opts dict built by download_video (lines 67 to 78): output
template, quiet off, HEADERS under the key named headers (not http_headers),
and the format chosen on lines 73 to 78: for YouTube or YouTube Shorts with a
truthy itag the result of get_format_string, otherwise the best sentinel. -/
def build_ydl_opts (file_path platform : String) (itag : PyVal) : YdlOpts :=
  let base : YdlOpts :=
    { outtmpl := some file_path
      quiet := false
      headers := some HEADERS
      http_headers := Option.none
      format := Option.none }
  if (platform == "YouTube" || platform == "YouTube Shorts") && pyTruthy itag then
    { base with format := some (get_format_string itag) }
  else
    { base with format := some "best" }

/-- What one run of download_video produced: its returned dict, the resulting
filesystem state, and how many times it invoked the collaborator. -/
structure DlRun where
  result : DownloadResult
  fs : List String
  dlCalls : Nat
deriving DecidableEq

/-- download_video (lines 59 to 90): resolve the folder with a generic
fallback, ensure it exists, build the fixed output path, configure the
collaborator and download once. A DownloadError is converted to an error dict
with the prefix for download errors; any other exception, the OSError of
os.makedirs included, is converted to an error dict with the generic prefix.
Nothing is retried and nothing is re-raised. -/
def download_video (dl : YdlOpts → String → DlOutcome) (mkdirRaises : Option String)
    (fs : List String) (url platform : String) (itag : PyVal) : DlRun :=
  let download_folder := dictGetD DOWNLOAD_FOLDERS platform "downloads"
  match ensure_folder_exists mkdirRaises fs download_folder with
  | Except.error e =>
      { result := DownloadResult.failure ("Exception in download_video: " ++ e)
        fs := fs
        dlCalls := 0 }
  | Except.ok fs1 =>
      let file_path := download_folder ++ "/" ++ DEFAULT_FILE_NAME
      match dl (build_ydl_opts file_path platform itag) url with
      | DlOutcome.ok =>
          { result := DownloadResult.success file_path, fs := fs1, dlCalls := 1 }
      | DlOutcome.downloadError e =>
          { result := DownloadResult.failure ("Download error: " ++ e)
            fs := fs1
            dlCalls := 1 }
      | DlOutcome.otherError e =>
          { result := DownloadResult.failure ("Exception in download_video: " ++ e)
            fs := fs1
            dlCalls := 1 }

/-- Python or-chaining over optional strings: an absent value or an empty
string falls through to the alternative. -/
def pyOrStr (a : Option String) (b : String) : String :=
  match a with
  | some s => if s = "" then b else s
  | Option.none => b

/-- The display label of a variant as main builds it (line 117): resolution,
else format_note, else the literal unknown. -/
def resolutionLabel (f : FormatDict) : String :=
  pyOrStr f.resolution (pyOrStr f.format_note "unknown")

/-- Assignment into a Python dict: replace the value of an existing key,
otherwise append the new entry. -/
def dictInsert (d : List (String × String)) (k v : String) : List (String × String) :=
  if d.any (fun p => p.1 == k) then
    d.map (fun p => if p.1 == k then (k, v) else p)
  else d ++ [(k, v)]

/-- One step of the loop of main (lines 115 to 118): a variant carrying a
format_id key is inserted under that id; a variant without one is dropped. -/
def itagStep (d : List (String × String)) (f : FormatDict) : List (String × String) :=
  match f.format_id with
  | some fid => dictInsert d fid (resolutionLabel f)
  | Option.none => d

/-- The available_itags dict that main builds from the fetched formats
(lines 113 to 118). Its keys are the format_id strings of the variants. -/
def build_available_itags (formats : List FormatDict) : List (String × String) :=
  formats.foldl itagStep []

/-- A concrete variant carrying no format_id key, used as a test vector. -/
def noIdVariant : FormatDict :=
  { format_id := Option.none
    resolution := some "640x360"
    format_note := Option.none }


-- helper lemmas

lemma get_format_string_str (s : String) : get_format_string (PyVal.str s) = "best" := by
  simp [get_format_string, pyDictGetD, format_map]

lemma get_format_string_falsy (v : PyVal) (h : pyTruthy v = false) :
    get_format_string v = "best" := by
  cases v with
  | none => rfl
  | int n =>
      have hn : n = 0 := by simpa [pyTruthy] using h
      subst hn
      rfl
  | str s => exact get_format_string_str s

lemma download_success_eq (dl : YdlOpts → String → DlOutcome) (mk : Option String)
    (fs : List String) (url platform : String) (itag : PyVal) (p : String)
    (h : (download_video dl mk fs url platform itag).result = DownloadResult.success p) :
    p = dictGetD DOWNLOAD_FOLDERS platform "downloads" ++ "/" ++ DEFAULT_FILE_NAME := by
  cases he : ensure_folder_exists mk fs (dictGetD DOWNLOAD_FOLDERS platform "downloads") with
  | error e => simp [download_video, he] at h
  | ok fs1 =>
      cases hd : dl (build_ydl_opts
          (dictGetD DOWNLOAD_FOLDERS platform "downloads" ++ "/" ++ DEFAULT_FILE_NAME)
          platform itag) url with
      | ok =>
          simp [download_video, he, hd] at h
          exact h.symm
      | downloadError e => simp [download_video, he, hd] at h
      | otherError e => simp [download_video, he, hd] at h

lemma dictGetD_no_key (d : List (String × String)) (k dflt : String)
    (h : ∀ kv ∈ d, kv.1 ≠ k) : dictGetD d k dflt = dflt := by
  induction d with
  | nil => rfl
  | cons kv rest ih =>
      have hk : k ≠ kv.1 := fun he => h kv (List.mem_cons_self kv rest) he.symm
      simpa [dictGetD, hk] using ih (fun x hx => h x (List.mem_cons_of_mem kv hx))

lemma ensure_none_ok (fs : List String) (folder : String) :
    ∃ fs1, ensure_folder_exists Option.none fs folder = Except.ok fs1 ∧ folder ∈ fs1 := by
  by_cases hm : folder ∈ fs
  · exact ⟨fs, by simp [ensure_folder_exists, hm], hm⟩
  · exact ⟨folder :: fs, by simp [ensure_folder_exists, hm], List.mem_cons_self folder fs⟩

lemma error_prefixes_distinct (e1 e2 : String) :
    "Download error: " ++ e1 ≠ "Exception in download_video: " ++ e2 := by
  intro h
  have hd := congrArg String.data h
  simp [String.data_append] at hd


/-- C1: when download_video succeeds, the returned file path is the folder
mapped from the platform by the static table, with the generic fallback
"downloads" for an unknown label, joined with the constant filename
"Untitled.mp4" (so "youtube_video/Untitled.mp4" for YouTube and
"tiktok_video/Untitled.mp4" for TikTok), and the path never depends on the
source URL. -/
theorem download_video_success_path (dl : YdlOpts → String → DlOutcome)
    (mk : Option String) (fs : List String) (url platform : String) (itag : PyVal)
    (p : String)
    (h : (download_video dl mk fs url platform itag).result = DownloadResult.success p) :
    p = dictGetD DOWNLOAD_FOLDERS platform "downloads" ++ "/" ++ DEFAULT_FILE_NAME
    ∧ dictGetD DOWNLOAD_FOLDERS "YouTube" "downloads" = "youtube_video"
    ∧ dictGetD DOWNLOAD_FOLDERS "TikTok" "downloads" = "tiktok_video"
    ∧ (∀ pl, (∀ kv ∈ DOWNLOAD_FOLDERS, kv.1 ≠ pl) →
        dictGetD DOWNLOAD_FOLDERS pl "downloads" = "downloads")
    ∧ (∀ url2 p2,
        (download_video dl mk fs url2 platform itag).result = DownloadResult.success p2 →
        p2 = p) := by
  have h1 := download_success_eq dl mk fs url platform itag p h
  refine ⟨h1, by decide, by decide, ?_, ?_⟩
  · intro pl hpl
    exact dictGetD_no_key DOWNLOAD_FOLDERS pl "downloads" hpl
  · intro url2 p2 h2
    rw [download_success_eq dl mk fs url2 platform itag p2 h2, h1]

/-- C1 witness: a concrete successful download for YouTube lands at
youtube_video/Untitled.mp4. -/
theorem download_video_success_path_witness :
    "youtube_video/Untitled.mp4"
        = dictGetD DOWNLOAD_FOLDERS "YouTube" "downloads" ++ "/" ++ DEFAULT_FILE_NAME
    ∧ dictGetD DOWNLOAD_FOLDERS "YouTube" "downloads" = "youtube_video"
    ∧ dictGetD DOWNLOAD_FOLDERS "TikTok" "downloads" = "tiktok_video"
    ∧ (∀ pl, (∀ kv ∈ DOWNLOAD_FOLDERS, kv.1 ≠ pl) →
        dictGetD DOWNLOAD_FOLDERS pl "downloads" = "downloads")
    ∧ (∀ url2 p2,
        (download_video (fun _ _ => DlOutcome.ok) Option.none [] url2 "YouTube"
            (PyVal.int 22)).result = DownloadResult.success p2 →
        p2 = "youtube_video/Untitled.mp4") :=
  download_video_success_path (fun _ _ => DlOutcome.ok) Option.none [] "https://a.example/v"
    "YouTube" (PyVal.int 22) "youtube_video/Untitled.mp4" (by decide)

/-- C2: get_format_string is a total function that maps the integer
identifiers 18, 22 and 37 to the strings 18, 22 and 37, and every other value
to the best sentinel. -/
theorem get_format_string_spec (v : PyVal)
    (h18 : v ≠ PyVal.int 18) (h22 : v ≠ PyVal.int 22) (h37 : v ≠ PyVal.int 37) :
    get_format_string (PyVal.int 18) = "18"
    ∧ get_format_string (PyVal.int 22) = "22"
    ∧ get_format_string (PyVal.int 37) = "37"
    ∧ get_format_string v = "best" := by
  refine ⟨rfl, rfl, rfl, ?_⟩
  simp only [get_format_string, format_map, pyDictGetD]
  rw [if_neg h18, if_neg h22, if_neg h37]

/-- C2 witness: the three known identifiers map exactly, and the unknown
identifier 99 maps to the sentinel. -/
theorem get_format_string_spec_witness :
    get_format_string (PyVal.int 18) = "18"
    ∧ get_format_string (PyVal.int 22) = "22"
    ∧ get_format_string (PyVal.int 37) = "37"
    ∧ get_format_string (PyVal.int 99) = "best" :=
  get_format_string_spec (PyVal.int 99) (by decide) (by decide) (by decide)

/-- C3: for YouTube or YouTube Shorts with a supplied selector, the format
field of the configuration that download_video builds equals get_format_string
of that selector; for any other platform or with no selector supplied it is
the best sentinel. -/
theorem build_ydl_opts_format_spec (file_path platform : String) (itag : PyVal)
    (hsup : platform = "YouTube" ∨ platform = "YouTube Shorts")
    (_hsome : itag ≠ PyVal.none) :
    (build_ydl_opts file_path platform itag).format = some (get_format_string itag)
    ∧ (∀ fp pl v, (pl ≠ "YouTube" ∧ pl ≠ "YouTube Shorts") ∨ v = PyVal.none →
        (build_ydl_opts fp pl v).format = some "best") := by
  constructor
  · cases ht : pyTruthy itag with
    | false =>
        have hb : get_format_string itag = "best" := get_format_string_falsy itag ht
        simp [build_ydl_opts, ht, hb]
    | true =>
        rcases hsup with h | h <;> subst h <;> simp [build_ydl_opts, ht]
  · intro fp pl v hv
    rcases hv with ⟨h1, h2⟩ | h
    · simp [build_ydl_opts, h1, h2]
    · subst h
      simp [build_ydl_opts, pyTruthy]

/-- C3 witness: YouTube with selector 22 configures the resolved format; the
other cases configure the sentinel. -/
theorem build_ydl_opts_format_spec_witness :
    (build_ydl_opts "youtube_video/Untitled.mp4" "YouTube" (PyVal.int 22)).format
        = some (get_format_string (PyVal.int 22))
    ∧ (∀ fp pl v, (pl ≠ "YouTube" ∧ pl ≠ "YouTube Shorts") ∨ v = PyVal.none →
        (build_ydl_opts fp pl v).format = some "best") :=
  build_ydl_opts_format_spec "youtube_video/Untitled.mp4" "YouTube" (PyVal.int 22)
    (Or.inl rfl) (by decide)


lemma foldl_itagStep_no_id (fmts : List FormatDict)
    (h : ∀ f ∈ fmts, f.format_id = Option.none) :
    ∀ acc : List (String × String), fmts.foldl itagStep acc = acc := by
  induction fmts with
  | nil => intro acc; rfl
  | cons f rest ih =>
      intro acc
      have hf : f.format_id = Option.none := h f (List.mem_cons_self f rest)
      have hstep : itagStep acc f = acc := by simp [itagStep, hf]
      simpa [List.foldl, hstep] using ih (fun g hg => h g (List.mem_cons_of_mem f hg)) acc

/-- C4 counterexample: for a collaborator whose response holds one variant
without a format_id key, fetch_video_info returns success carrying that
variant unfiltered, so variants missing a format identifier are not dropped by
fetch_video_info. -/
theorem fetch_video_info_no_filtering_cex :
    (fetch_video_info (fun _ _ => ExtractOutcome.ok { formats := some [noIdVariant] })
        "https://a.example/v").result = FetchResult.success [noIdVariant]
    ∧ noIdVariant.format_id = Option.none
    ∧ FetchResult.success [noIdVariant] ≠ FetchResult.success ([] : List FormatDict) :=
  ⟨rfl, rfl, by decide⟩

/-- C4 amended: fetch_video_info returns the formats list of the response
unchanged, dropping nothing; the dropping of variants without a format
identifier is done by the caller, main, whose available_itags dict is empty
whenever every variant lacks a format identifier. -/
theorem fetch_video_info_returns_raw_list (extract : YdlOpts → String → ExtractOutcome)
    (url : String) (info : InfoDict)
    (h : extract fetch_video_info_opts url = ExtractOutcome.ok info) :
    (fetch_video_info extract url).result = FetchResult.success (info.formats.getD [])
    ∧ (∀ fmts : List FormatDict, (∀ f ∈ fmts, f.format_id = Option.none) →
        build_available_itags fmts = []) := by
  constructor
  · simp [fetch_video_info, h]
  · intro fmts hall
    exact foldl_itagStep_no_id fmts hall []

/-- C4 witness: a concrete response of two variants without identifiers is
returned whole, and the dict main builds from variants without identifiers is
empty. -/
theorem fetch_video_info_returns_raw_list_witness :
    (fetch_video_info
        (fun _ _ => ExtractOutcome.ok { formats := some [noIdVariant, noIdVariant] })
        "https://b.example/v").result
      = FetchResult.success (Option.getD (some [noIdVariant, noIdVariant]) [])
    ∧ (∀ fmts : List FormatDict, (∀ f ∈ fmts, f.format_id = Option.none) →
        build_available_itags fmts = []) :=
  fetch_video_info_returns_raw_list
    (fun _ _ => ExtractOutcome.ok { formats := some [noIdVariant, noIdVariant] })
    "https://b.example/v" { formats := some [noIdVariant, noIdVariant] } rfl

/-- C5: the configuration of fetch_video_info carries HEADERS under the
http_headers override key, but the configuration of download_video carries
HEADERS under the distinct key named headers and leaves http_headers absent:
the download path does not use the HTTP-header-override field. -/
theorem download_opts_headers_key_mismatch :
    fetch_video_info_opts.http_headers = some HEADERS
    ∧ fetch_video_info_opts.headers = Option.none
    ∧ (build_ydl_opts "youtube_video/Untitled.mp4" "YouTube" (PyVal.int 22)).http_headers
        = Option.none
    ∧ (build_ydl_opts "youtube_video/Untitled.mp4" "YouTube" (PyVal.int 22)).headers
        = some HEADERS :=
  ⟨rfl, rfl, rfl, rfl⟩

/-- C6 counterexample: a collaborator raising an exception whose message is
the empty string makes fetch_video_info return a failure whose message is
empty, so the failure message is not always non-empty. -/
theorem fetch_empty_message_cex :
    (fetch_video_info (fun _ _ => ExtractOutcome.exn "") "https://c.example/v").result
      = FetchResult.failure ""
    ∧ ("" : String).length = 0 :=
  ⟨rfl, rfl⟩

/-- C6 amended: when the collaborator raises, fetch_video_info catches the
exception and returns a failure carrying exactly the exception message, with
the collaborator invoked exactly once; the message is non-empty whenever the
exception message is non-empty. -/
theorem fetch_video_info_error_handling (extract : YdlOpts → String → ExtractOutcome)
    (url e : String) (h : extract fetch_video_info_opts url = ExtractOutcome.exn e) :
    (fetch_video_info extract url).result = FetchResult.failure e
    ∧ (fetch_video_info extract url).extractCalls = 1
    ∧ (e ≠ "" → (fetch_video_info extract url).result ≠ FetchResult.failure "") := by
  refine ⟨by simp [fetch_video_info, h], by simp [fetch_video_info, h], ?_⟩
  intro hne hcontra
  rw [show (fetch_video_info extract url).result = FetchResult.failure e by
        simp [fetch_video_info, h]] at hcontra
  exact hne (by injection hcontra)

/-- C6 witness: a concrete collaborator raising a network error message gives
a failure carrying that message, one collaborator call, and a non-empty
message. -/
theorem fetch_video_info_error_handling_witness :
    (fetch_video_info (fun _ _ => ExtractOutcome.exn "network unreachable")
        "https://d.example/v").result = FetchResult.failure "network unreachable"
    ∧ (fetch_video_info (fun _ _ => ExtractOutcome.exn "network unreachable")
        "https://d.example/v").extractCalls = 1
    ∧ ("network unreachable" ≠ "" →
        (fetch_video_info (fun _ _ => ExtractOutcome.exn "network unreachable")
            "https://d.example/v").result ≠ FetchResult.failure "") :=
  fetch_video_info_error_handling (fun _ _ => ExtractOutcome.exn "network unreachable")
    "https://d.example/v" "network unreachable" rfl


/-- C7: download_video always returns a result dict, success or failure, and
never re-raises; a raised DownloadError becomes a failure with the download
error prefix, any other exception, a directory-creation failure included,
becomes a failure with the generic prefix; the two prefixes never produce the
same message; the collaborator is invoked at most once, so nothing is
retried. -/
theorem download_video_error_handling (dl : YdlOpts → String → DlOutcome)
    (mk : Option String) (fs : List String) (url platform : String) (itag : PyVal) :
    ((∃ p, (download_video dl mk fs url platform itag).result = DownloadResult.success p)
      ∨ (∃ m, (download_video dl mk fs url platform itag).result = DownloadResult.failure m))
    ∧ (∀ e, ensure_folder_exists mk fs (dictGetD DOWNLOAD_FOLDERS platform "downloads")
          = Except.error e →
        (download_video dl mk fs url platform itag).result
          = DownloadResult.failure ("Exception in download_video: " ++ e))
    ∧ (∀ fs1 e, ensure_folder_exists mk fs (dictGetD DOWNLOAD_FOLDERS platform "downloads")
          = Except.ok fs1 →
        dl (build_ydl_opts
            (dictGetD DOWNLOAD_FOLDERS platform "downloads" ++ "/" ++ DEFAULT_FILE_NAME)
            platform itag) url = DlOutcome.downloadError e →
        (download_video dl mk fs url platform itag).result
          = DownloadResult.failure ("Download error: " ++ e))
    ∧ (∀ fs1 e, ensure_folder_exists mk fs (dictGetD DOWNLOAD_FOLDERS platform "downloads")
          = Except.ok fs1 →
        dl (build_ydl_opts
            (dictGetD DOWNLOAD_FOLDERS platform "downloads" ++ "/" ++ DEFAULT_FILE_NAME)
            platform itag) url = DlOutcome.otherError e →
        (download_video dl mk fs url platform itag).result
          = DownloadResult.failure ("Exception in download_video: " ++ e))
    ∧ (download_video dl mk fs url platform itag).dlCalls ≤ 1
    ∧ (∀ e1 e2 : String,
        "Download error: " ++ e1 ≠ "Exception in download_video: " ++ e2) := by
  refine ⟨?_, ?_, ?_, ?_, ?_, error_prefixes_distinct⟩
  · cases hres : (download_video dl mk fs url platform itag).result with
    | success p => exact Or.inl ⟨p, rfl⟩
    | failure m => exact Or.inr ⟨m, rfl⟩
  · intro e he
    simp [download_video, he]
  · intro fs1 e he hd
    simp [download_video, he, hd]
  · intro fs1 e he hd
    simp [download_video, he, hd]
  · cases he : ensure_folder_exists mk fs (dictGetD DOWNLOAD_FOLDERS platform "downloads") with
    | error e => simp [download_video, he]
    | ok fs1 =>
        cases hd : dl (build_ydl_opts
            (dictGetD DOWNLOAD_FOLDERS platform "downloads" ++ "/" ++ DEFAULT_FILE_NAME)
            platform itag) url with
        | ok => simp [download_video, he, hd]
        | downloadError e => simp [download_video, he, hd]
        | otherError e => simp [download_video, he, hd]

/-- C8: ensure_folder_exists with an existing directory changes nothing, does
not attempt creation, and a second call after a creating call changes nothing
either: afterwards exactly one directory of that name exists. -/
theorem ensure_folder_exists_idempotent (mk : Option String) (fs : List String)
    (folder : String) (hnd : fs.Nodup) :
    (folder ∈ fs → ensure_folder_exists mk fs folder = Except.ok fs)
    ∧ (∀ fs1, ensure_folder_exists Option.none fs folder = Except.ok fs1 →
        ensure_folder_exists mk fs1 folder = Except.ok fs1
        ∧ fs1.count folder = 1 ∧ fs1.Nodup) := by
  constructor
  · intro hm
    simp [ensure_folder_exists, hm]
  · intro fs1 h1
    by_cases hm : folder ∈ fs
    · have hfs : fs1 = fs := by
        simpa [ensure_folder_exists, hm] using h1.symm
      subst hfs
      exact ⟨by simp [ensure_folder_exists, hm],
        List.count_eq_one_of_mem hnd hm, hnd⟩
    · have hfs : fs1 = folder :: fs := by
        simpa [ensure_folder_exists, hm] using h1.symm
      subst hfs
      refine ⟨by simp [ensure_folder_exists], ?_, List.nodup_cons.mpr ⟨hm, hnd⟩⟩
      simp [List.count_cons_self, List.count_eq_zero_of_not_mem hm]

/-- C8 witness: on the filesystem holding only youtube_video, a repeated call
is a no-op and exactly one directory of that name remains. -/
theorem ensure_folder_exists_idempotent_witness :
    ("youtube_video" ∈ (["youtube_video"] : List String) →
        ensure_folder_exists Option.none ["youtube_video"] "youtube_video"
          = Except.ok ["youtube_video"])
    ∧ (∀ fs1, ensure_folder_exists Option.none ["youtube_video"] "youtube_video"
          = Except.ok fs1 →
        ensure_folder_exists Option.none fs1 "youtube_video" = Except.ok fs1
        ∧ fs1.count "youtube_video" = 1 ∧ fs1.Nodup) :=
  ensure_folder_exists_idempotent Option.none ["youtube_video"] "youtube_video" (by decide)

/-- C9: the lookup table of get_format_string is keyed by integers, so every
string-typed selector, the strings 18, 22 and 37 included, maps to the best
sentinel; the configuration download_video builds for a string selector
therefore always carries the sentinel, and every key of the available_itags
dict main offers in the UI is such a string. -/
theorem string_selector_never_maps (s fp platform : String) (formats : List FormatDict) :
    get_format_string (PyVal.str s) = "best"
    ∧ get_format_string (PyVal.str "22") = "best"
    ∧ (build_ydl_opts fp platform (PyVal.str s)).format = some "best"
    ∧ (∀ kv ∈ build_available_itags formats,
        get_format_string (PyVal.str kv.1) = "best") := by
  refine ⟨get_format_string_str s, get_format_string_str "22", ?_, ?_⟩
  · cases ht : pyTruthy (PyVal.str s) with
    | false => simp [build_ydl_opts, ht]
    | true => simp [build_ydl_opts, ht, get_format_string_str]
  · intro kv _
    exact get_format_string_str kv.1

/-- C10: with directory creation succeeding, a download_video run that ends in
a failure has nevertheless created the platform directory: the directory is in
the final filesystem state and the collaborator was invoked, so the failed
operation is not rolled back. -/
theorem download_video_folder_persists_on_failure (dl : YdlOpts → String → DlOutcome)
    (fs : List String) (url platform : String) (itag : PyVal) (msg : String)
    (h : (download_video dl Option.none fs url platform itag).result
        = DownloadResult.failure msg) :
    dictGetD DOWNLOAD_FOLDERS platform "downloads"
      ∈ (download_video dl Option.none fs url platform itag).fs
    ∧ (download_video dl Option.none fs url platform itag).dlCalls = 1 := by
  obtain ⟨fs1, he, hmem⟩ :=
    ensure_none_ok fs (dictGetD DOWNLOAD_FOLDERS platform "downloads")
  cases hd : dl (build_ydl_opts
      (dictGetD DOWNLOAD_FOLDERS platform "downloads" ++ "/" ++ DEFAULT_FILE_NAME)
      platform itag) url with
  | ok => simp [download_video, he, hd] at h
  | downloadError e => constructor <;> simp [download_video, he, hd, hmem]
  | otherError e => constructor <;> simp [download_video, he, hd, hmem]

/-- C10 witness: a concrete failing TikTok download leaves the tiktok_video
directory in the filesystem state. -/
theorem download_video_folder_persists_on_failure_witness :
    dictGetD DOWNLOAD_FOLDERS "TikTok" "downloads"
      ∈ (download_video (fun _ _ => DlOutcome.downloadError "boom") Option.none []
          "https://e.example/v" "TikTok" PyVal.none).fs
    ∧ (download_video (fun _ _ => DlOutcome.downloadError "boom") Option.none []
        "https://e.example/v" "TikTok" PyVal.none).dlCalls = 1 :=
  download_video_folder_persists_on_failure (fun _ _ => DlOutcome.downloadError "boom")
    [] "https://e.example/v" "TikTok" PyVal.none "Download error: boom" (by decide)

end VideoDownloader
